import Mathlib

/-!
Shallow embedding of the normalized bounding-box coordinate model of the
gemini-chat PDF processor, together with theorems settling the spec's
claims about it.

Numbers are modelled as rationals (the source operates on JS numbers with
exact ratio/product arithmetic at the scales involved); `Math.round` is
Mathlib's `round` (both round half up: `round q = ⌊q + 1/2⌋`).
-/

namespace GeminiChat

/-- `BoundingBox` from `src/types/pdfTypes.ts`: a rectangular region on one
page, in normalized 0–1000 coordinates; `id` is optional. -/
structure BoundingBox where
  page : Nat
  x : ℚ
  y : ℚ
  width : ℚ
  height : ℚ
  text : String
  id : Option String
deriving DecidableEq

/-- One entry of `PdfResults.pages` from `src/types/pdfTypes.ts`. -/
structure PdfPage where
  boxes : List BoundingBox
deriving DecidableEq

/-- `PdfResults` from `src/types/pdfTypes.ts`. -/
structure PdfResults where
  pages : List PdfPage
deriving DecidableEq

/-- The rectangle record returned by `normalizeCoordinates`. -/
structure Rect where
  x : ℚ
  y : ℚ
  width : ℚ
  height : ℚ
deriving DecidableEq

/-- The integer rectangle returned by `denormalizeCoordinates` (each
component passes through `Math.round`). -/
structure IntRect where
  x : ℤ
  y : ℤ
  width : ℤ
  height : ℤ
deriving DecidableEq

/-- `normalizeCoordinates` from `src/utils/pdfUtils.ts` (lines 6–13):
normalized 0–1000 space to canvas pixels. -/
def normalizeCoordinates (box : BoundingBox) (pageWidth pageHeight scale : ℚ) : Rect :=
  { x := box.x / 1000 * pageWidth * scale
    y := box.y / 1000 * pageHeight * scale
    width := box.width / 1000 * pageWidth * scale
    height := box.height / 1000 * pageHeight * scale }

/-- `denormalizeCoordinates` from `src/utils/pdfUtils.ts` (lines 18–29):
canvas pixels back to normalized 0–1000 space, with `Math.round`. -/
def denormalizeCoordinates (x y width height pageWidth pageHeight scale : ℚ) : IntRect :=
  { x := round (x / scale / pageWidth * 1000)
    y := round (y / scale / pageHeight * 1000)
    width := round (width / scale / pageWidth * 1000)
    height := round (height / scale / pageHeight * 1000) }

/-- Round-trip of one box through `normalizeCoordinates` then
`denormalizeCoordinates` at the same page dimensions and scale. -/
def roundTrip (box : BoundingBox) (pageWidth pageHeight scale : ℚ) : IntRect :=
  let r := normalizeCoordinates box pageWidth pageHeight scale
  denormalizeCoordinates r.x r.y r.width r.height pageWidth pageHeight scale

theorem roundTrip_x_eq (box : BoundingBox) (pageWidth pageHeight scale : ℚ)
    (hW : pageWidth ≠ 0) (hs : scale ≠ 0) :
    (roundTrip box pageWidth pageHeight scale).x = round box.x := by
  have : box.x / 1000 * pageWidth * scale / scale / pageWidth * 1000 = box.x := by
    field_simp
    ring
  simp [roundTrip, normalizeCoordinates, denormalizeCoordinates, this]

theorem roundTrip_y_eq (box : BoundingBox) (pageWidth pageHeight scale : ℚ)
    (hH : pageHeight ≠ 0) (hs : scale ≠ 0) :
    (roundTrip box pageWidth pageHeight scale).y = round box.y := by
  have : box.y / 1000 * pageHeight * scale / scale / pageHeight * 1000 = box.y := by
    field_simp
    ring
  simp [roundTrip, normalizeCoordinates, denormalizeCoordinates, this]

theorem roundTrip_width_eq (box : BoundingBox) (pageWidth pageHeight scale : ℚ)
    (hW : pageWidth ≠ 0) (hs : scale ≠ 0) :
    (roundTrip box pageWidth pageHeight scale).width = round box.width := by
  have : box.width / 1000 * pageWidth * scale / scale / pageWidth * 1000 = box.width := by
    field_simp
    ring
  simp [roundTrip, normalizeCoordinates, denormalizeCoordinates, this]

theorem roundTrip_height_eq (box : BoundingBox) (pageWidth pageHeight scale : ℚ)
    (hH : pageHeight ≠ 0) (hs : scale ≠ 0) :
    (roundTrip box pageWidth pageHeight scale).height = round box.height := by
  have : box.height / 1000 * pageHeight * scale / scale / pageHeight * 1000 = box.height := by
    field_simp
    ring
  simp [roundTrip, normalizeCoordinates, denormalizeCoordinates, this]

theorem abs_round_sub_le (q : ℚ) : |(round q : ℚ) - q| ≤ 1 := by
  have h := abs_sub_round q
  rw [abs_sub_comm] at h
  linarith

/-- C1: for every box and positive page width, page height and scale,
converting normalized to screen space with `normalizeCoordinates` and back
with `denormalizeCoordinates` reproduces each of the box's x, y, width and
height within ±1 unit in normalized space. -/
theorem claim_C1_round_trip (box : BoundingBox) (pageWidth pageHeight scale : ℚ)
    (hW : 0 < pageWidth) (hH : 0 < pageHeight) (hs : 0 < scale) :
    |((roundTrip box pageWidth pageHeight scale).x : ℚ) - box.x| ≤ 1 ∧
    |((roundTrip box pageWidth pageHeight scale).y : ℚ) - box.y| ≤ 1 ∧
    |((roundTrip box pageWidth pageHeight scale).width : ℚ) - box.width| ≤ 1 ∧
    |((roundTrip box pageWidth pageHeight scale).height : ℚ) - box.height| ≤ 1 := by
  refine ⟨?_, ?_, ?_, ?_⟩
  · rw [roundTrip_x_eq box pageWidth pageHeight scale hW.ne' hs.ne']
    exact abs_round_sub_le box.x
  · rw [roundTrip_y_eq box pageWidth pageHeight scale hH.ne' hs.ne']
    exact abs_round_sub_le box.y
  · rw [roundTrip_width_eq box pageWidth pageHeight scale hW.ne' hs.ne']
    exact abs_round_sub_le box.width
  · rw [roundTrip_height_eq box pageWidth pageHeight scale hH.ne' hs.ne']
    exact abs_round_sub_le box.height

/-- C1 witness: the round-trip bound instantiated at a concrete box on a
1000×800 page at scale 3/2. -/
theorem claim_C1_round_trip_witness :
    (0 : ℚ) < 1000 ∧ (0 : ℚ) < 800 ∧ (0 : ℚ) < 3/2 ∧
    (|((roundTrip ⟨1, 100, 100, 200, 50, "Name", some "box-1-0"⟩ 1000 800 (3/2)).x : ℚ) - 100| ≤ 1 ∧
     |((roundTrip ⟨1, 100, 100, 200, 50, "Name", some "box-1-0"⟩ 1000 800 (3/2)).y : ℚ) - 100| ≤ 1 ∧
     |((roundTrip ⟨1, 100, 100, 200, 50, "Name", some "box-1-0"⟩ 1000 800 (3/2)).width : ℚ) - 200| ≤ 1 ∧
     |((roundTrip ⟨1, 100, 100, 200, 50, "Name", some "box-1-0"⟩ 1000 800 (3/2)).height : ℚ) - 50| ≤ 1) :=
  ⟨by norm_num, by norm_num, by norm_num,
   claim_C1_round_trip ⟨1, 100, 100, 200, 50, "Name", some "box-1-0"⟩ 1000 800 (3/2)
     (by norm_num) (by norm_num) (by norm_num)⟩

/-- C10: the normalized-to-screen transform is linear in the zoom scale:
each component of `normalizeCoordinates box W H s` is `s` times the
corresponding component at scale 1. -/
theorem claim_C10_scale_linear (box : BoundingBox) (pageWidth pageHeight scale : ℚ) :
    (normalizeCoordinates box pageWidth pageHeight scale).x
      = scale * (normalizeCoordinates box pageWidth pageHeight 1).x ∧
    (normalizeCoordinates box pageWidth pageHeight scale).y
      = scale * (normalizeCoordinates box pageWidth pageHeight 1).y ∧
    (normalizeCoordinates box pageWidth pageHeight scale).width
      = scale * (normalizeCoordinates box pageWidth pageHeight 1).width ∧
    (normalizeCoordinates box pageWidth pageHeight scale).height
      = scale * (normalizeCoordinates box pageWidth pageHeight 1).height := by
  refine ⟨?_, ?_, ?_, ?_⟩ <;> simp [normalizeCoordinates] <;> ring

/-- The point-in-screen-rectangle test of `handleCanvasMouseDown` in
`src/components/PdfProcessor.tsx` (lines 532–538): the box's screen
rectangle via `normalizeCoordinates`, then the four inclusive comparisons. -/
def boxContainsPoint (box : BoundingBox) (pageWidth pageHeight scale mouseX mouseY : ℚ) : Bool :=
  let r := normalizeCoordinates box pageWidth pageHeight scale
  decide (mouseX ≥ r.x) && decide (mouseX ≤ r.x + r.width) &&
  decide (mouseY ≥ r.y) && decide (mouseY ≤ r.y + r.height)

/-- The `for ... break` loop of `handleCanvasMouseDown`
(`src/components/PdfProcessor.tsx` lines 529–542): walk the boxes in order
and stop at the first one whose screen rectangle contains the mouse point. -/
def findHitBox : List BoundingBox → ℚ → ℚ → ℚ → ℚ → ℚ → Option BoundingBox
  | [], _, _, _, _, _ => none
  | box :: rest, pageWidth, pageHeight, scale, mouseX, mouseY =>
    if boxContainsPoint box pageWidth pageHeight scale mouseX mouseY then some box
    else findHitBox rest pageWidth pageHeight scale mouseX mouseY

/-- `currentPageBoxes` as computed in `handleCanvasMouseDown`
(`src/components/PdfProcessor.tsx` lines 525–527): flatten the page groups
and keep the boxes of the current page, in store order. -/
def currentPageBoxes (results : PdfResults) (currentPage : Nat) : List BoundingBox :=
  (results.pages.flatMap (fun page => page.boxes)).filter (fun box => box.page == currentPage)

/-- The hit-test performed by `handleCanvasMouseDown`
(`src/components/PdfProcessor.tsx` lines 511–553): the box that becomes
selected (`none` when the click hits no box). -/
def handleCanvasMouseDownHit (results : PdfResults) (currentPage : Nat)
    (pageWidth pageHeight scale mouseX mouseY : ℚ) : Option BoundingBox :=
  findHitBox (currentPageBoxes results currentPage) pageWidth pageHeight scale mouseX mouseY

theorem findHitBox_eq_find? (boxes : List BoundingBox) (pageWidth pageHeight scale mouseX mouseY : ℚ) :
    findHitBox boxes pageWidth pageHeight scale mouseX mouseY
      = boxes.find? (fun box => boxContainsPoint box pageWidth pageHeight scale mouseX mouseY) := by
  induction boxes with
  | nil => rfl
  | cons box rest ih =>
    by_cases h : boxContainsPoint box pageWidth pageHeight scale mouseX mouseY
    · simp [findHitBox, List.find?, h]
    · simp only [Bool.not_eq_true] at h
      simp [findHitBox, List.find?, h, ih]

/-- C2: the hit test iterates the current page's boxes in store order and
selects the first whose screen rectangle contains the click (`find?` over
`currentPageBoxes`); in particular, when the current page's boxes are
exactly `[A, B]` (A inserted first) and the click lies in both rectangles,
box A is selected. -/
theorem claim_C2_hit_test (results : PdfResults) (currentPage : Nat)
    (pageWidth pageHeight scale mouseX mouseY : ℚ) (A B : BoundingBox) :
    (handleCanvasMouseDownHit results currentPage pageWidth pageHeight scale mouseX mouseY
      = (currentPageBoxes results currentPage).find?
          (fun box => boxContainsPoint box pageWidth pageHeight scale mouseX mouseY)) ∧
    (currentPageBoxes results currentPage = [A, B] →
      boxContainsPoint A pageWidth pageHeight scale mouseX mouseY = true →
      boxContainsPoint B pageWidth pageHeight scale mouseX mouseY = true →
      handleCanvasMouseDownHit results currentPage pageWidth pageHeight scale mouseX mouseY
        = some A) := by
  constructor
  · exact findHitBox_eq_find? _ _ _ _ _ _
  · intro hpage hA _hB
    rw [handleCanvasMouseDownHit, hpage]
    simp [findHitBox, hA]

/-- C2 witness: two overlapping boxes on page 1 of a 1000×800 page at scale
1; the click (150, 90) lies in both rectangles and selects the first box. -/
theorem claim_C2_hit_test_witness :
    handleCanvasMouseDownHit
        ⟨[⟨[⟨1, 100, 100, 200, 50, "Name", some "box-1-0"⟩,
            ⟨1, 120, 100, 200, 50, "Date", some "box-1-1"⟩]⟩]⟩
        1 1000 800 1 150 90
      = some ⟨1, 100, 100, 200, 50, "Name", some "box-1-0"⟩ :=
  (claim_C2_hit_test ⟨[⟨[⟨1, 100, 100, 200, 50, "Name", some "box-1-0"⟩,
      ⟨1, 120, 100, 200, 50, "Date", some "box-1-1"⟩]⟩]⟩ 1 1000 800 1 150 90
      ⟨1, 100, 100, 200, 50, "Name", some "box-1-0"⟩
      ⟨1, 120, 100, 200, 50, "Date", some "box-1-1"⟩).2
    (by rfl)
    (by norm_num [boxContainsPoint, normalizeCoordinates])
    (by norm_num [boxContainsPoint, normalizeCoordinates])

/-- All boxes of a document, in store order (the
`parsedResults.pages.flatMap(page => page.boxes)` idiom of
`src/components/PdfProcessor.tsx`). -/
def allBoxes (results : PdfResults) : List BoundingBox :=
  results.pages.flatMap (fun page => page.boxes)

/-- `handleCanvasMouseMove` from `src/components/PdfProcessor.tsx`
(lines 556–601), restricted to its effect on `parsedResults`: the pixel
delta since the last move is converted to a normalized-space delta
(`(delta / scale) / pageDim * 1000`, unrounded) and added to the x/y of
every box whose id equals the selected box's id. -/
def handleCanvasMouseMove (results : PdfResults) (selectedId : Option String)
    (deltaX deltaY pageWidth pageHeight scale : ℚ) : PdfResults :=
  let normalizedDeltaX := deltaX / scale / pageWidth * 1000
  let normalizedDeltaY := deltaY / scale / pageHeight * 1000
  { pages := results.pages.map fun page =>
      { boxes := page.boxes.map fun box =>
          if box.id = selectedId then
            { box with x := box.x + normalizedDeltaX, y := box.y + normalizedDeltaY }
          else box } }

/-- C3 counterexample: dragging the selected box (normalized x = 0) by one
pixel at scale 1 on a 3-pixel-wide page sets x to 1000/3 exactly, while the
claim's `round(dx/s/W*1000)` is 333; the code adds the unrounded delta, so
the claimed rounded change does not occur. -/
theorem claim_C3_drag_not_rounded :
    handleCanvasMouseMove ⟨[⟨[⟨1, 0, 0, 10, 10, "t", some "b"⟩]⟩]⟩ (some "b") 1 0 3 3 1
      = ⟨[⟨[⟨1, 1000/3, 0, 10, 10, "t", some "b"⟩]⟩]⟩ ∧
    round ((1 : ℚ) / 1 / 3 * 1000) = 333 ∧
    ((1000 / 3 : ℚ) ≠ 0 + 333) := by
  refine ⟨?_, ?_, by norm_num⟩
  · norm_num [handleCanvasMouseMove]
  · rw [round_eq]
    norm_num

theorem handleCanvasMouseMove_comp (results : PdfResults) (selectedId : Option String)
    (a b c d pageWidth pageHeight scale : ℚ) :
    handleCanvasMouseMove (handleCanvasMouseMove results selectedId a b pageWidth pageHeight scale)
        selectedId c d pageWidth pageHeight scale
      = handleCanvasMouseMove results selectedId (a + c) (b + d) pageWidth pageHeight scale := by
  simp only [handleCanvasMouseMove, List.map_map]
  congr 1
  apply List.map_congr_left
  intro page _
  simp only [Function.comp]
  congr 1
  rw [List.map_map]
  apply List.map_congr_left
  intro box _
  by_cases h : box.id = selectedId
  · simp only [Function.comp, h, if_pos rfl, if_pos]
    simp only [BoundingBox.mk.injEq, true_and, and_true]
    constructor <;> ring
  · simp only [Function.comp, if_neg h]

theorem handleCanvasMouseMove_zero (results : PdfResults) (selectedId : Option String)
    (pageWidth pageHeight scale : ℚ) :
    handleCanvasMouseMove results selectedId 0 0 pageWidth pageHeight scale = results := by
  simp [handleCanvasMouseMove]

/-- C3 amended: a drag adds the exact, unrounded normalized delta
`(delta / scale) / pageDim * 1000` to the selected box's x and y (boxes
with a different id are untouched), and a multi-step drag whose pixel
deltas sum to `(dx, dy)` produces exactly the same document as the single
drag by `(dx, dy)` — with no rounding there is no per-step rounding error. -/
theorem claim_C3_drag_delta (results : PdfResults) (selectedId : Option String)
    (pageWidth pageHeight scale : ℚ)
    (_hW : 0 < pageWidth) (_hH : 0 < pageHeight) (_hs : 0 < scale) :
    (∀ deltaX deltaY box, box ∈ allBoxes results → box.id = selectedId →
      { box with x := box.x + deltaX / scale / pageWidth * 1000,
                 y := box.y + deltaY / scale / pageHeight * 1000 }
        ∈ allBoxes (handleCanvasMouseMove results selectedId deltaX deltaY pageWidth pageHeight scale)) ∧
    (∀ deltaX deltaY box, box ∈ allBoxes results → box.id ≠ selectedId →
      box ∈ allBoxes (handleCanvasMouseMove results selectedId deltaX deltaY pageWidth pageHeight scale)) ∧
    (∀ deltas : List (ℚ × ℚ),
      deltas.foldl
          (fun acc d => handleCanvasMouseMove acc selectedId d.1 d.2 pageWidth pageHeight scale)
          results
        = handleCanvasMouseMove results selectedId (deltas.map Prod.fst).sum
            (deltas.map Prod.snd).sum pageWidth pageHeight scale) := by
  refine ⟨?_, ?_, ?_⟩
  · intro deltaX deltaY box hmem hid
    rw [allBoxes, List.mem_flatMap] at hmem
    obtain ⟨page, hpage, hbox⟩ := hmem
    rw [allBoxes, List.mem_flatMap]
    refine ⟨_, List.mem_map_of_mem _ hpage, ?_⟩
    have := List.mem_map_of_mem
      (fun box => if box.id = selectedId then
        { box with x := box.x + deltaX / scale / pageWidth * 1000,
                   y := box.y + deltaY / scale / pageHeight * 1000 }
        else box) hbox
    simpa [hid] using this
  · intro deltaX deltaY box hmem hid
    rw [allBoxes, List.mem_flatMap] at hmem
    obtain ⟨page, hpage, hbox⟩ := hmem
    rw [allBoxes, List.mem_flatMap]
    refine ⟨_, List.mem_map_of_mem _ hpage, ?_⟩
    have := List.mem_map_of_mem
      (fun box => if box.id = selectedId then
        { box with x := box.x + deltaX / scale / pageWidth * 1000,
                   y := box.y + deltaY / scale / pageHeight * 1000 }
        else box) hbox
    simpa [hid] using this
  · intro deltas
    induction deltas generalizing results with
    | nil => simp [handleCanvasMouseMove_zero]
    | cons d ds ih =>
      simp only [List.foldl_cons, List.map_cons, List.sum_cons]
      rw [ih (handleCanvasMouseMove results selectedId d.1 d.2 pageWidth pageHeight scale),
        handleCanvasMouseMove_comp]

/-- C3 witness: the exact-delta and multi-step-equals-single-drag facts at a
concrete one-box document, scale 1, page 3×3, deltas (1,0) and (2,1). -/
theorem claim_C3_drag_delta_witness :
    ({ (⟨1, 0, 0, 10, 10, "t", some "b"⟩ : BoundingBox) with
         x := (0 : ℚ) + 1 / 1 / 3 * 1000, y := (0 : ℚ) + 0 / 1 / 3 * 1000 }
      ∈ allBoxes (handleCanvasMouseMove ⟨[⟨[⟨1, 0, 0, 10, 10, "t", some "b"⟩]⟩]⟩
          (some "b") 1 0 3 3 1)) ∧
    ([((1 : ℚ), (0 : ℚ)), ((2 : ℚ), (1 : ℚ))].foldl
        (fun acc d => handleCanvasMouseMove acc (some "b") d.1 d.2 3 3 1)
        ⟨[⟨[⟨1, 0, 0, 10, 10, "t", some "b"⟩]⟩]⟩
      = handleCanvasMouseMove ⟨[⟨[⟨1, 0, 0, 10, 10, "t", some "b"⟩]⟩]⟩ (some "b")
          ([((1 : ℚ), (0 : ℚ)), ((2 : ℚ), (1 : ℚ))].map Prod.fst).sum
          ([((1 : ℚ), (0 : ℚ)), ((2 : ℚ), (1 : ℚ))].map Prod.snd).sum 3 3 1) :=
  ⟨(claim_C3_drag_delta ⟨[⟨[⟨1, 0, 0, 10, 10, "t", some "b"⟩]⟩]⟩ (some "b") 3 3 1
      (by norm_num) (by norm_num) (by norm_num)).1 1 0
      ⟨1, 0, 0, 10, 10, "t", some "b"⟩ (by simp [allBoxes]) rfl,
   (claim_C3_drag_delta ⟨[⟨[⟨1, 0, 0, 10, 10, "t", some "b"⟩]⟩]⟩ (some "b") 3 3 1
      (by norm_num) (by norm_num) (by norm_num)).2.2
      [((1 : ℚ), (0 : ℚ)), ((2 : ℚ), (1 : ℚ))]⟩

/-- `VariableField` from `src/types/pdfTypes.ts`. -/
structure VariableField where
  id : String
  name : String
  value : String
  boxId : Option String
deriving DecidableEq

/-- One mapping of `FieldMappingResult.mappings` (see
`src/types/pdfTypes.ts` and the mapping-service response shape). -/
structure VariableMapping where
  fieldId : String
  boxId : String
deriving DecidableEq

/-- `FieldMappingResult`: the parsed mapping-service response. -/
structure FieldMappingResult where
  mappings : List VariableMapping
  unmappedBoxes : List String
deriving DecidableEq

/-- `box.text.replace(/[^\w\s]/g, '').trim()` as used for field names in
`processFile` and the unmapped-box synthesis (`src/components/PdfProcessor.tsx`
lines 222 and 296, `src/services/pdfService.ts` line 263): drop every
character that is not a word character (letter, digit, underscore) or
whitespace, then trim surrounding whitespace. -/
def sanitizeFieldName (text : String) : String :=
  let kept := text.toList.filter
    (fun c => c.isAlpha || c.isDigit || c == '_' || c.isWhitespace)
  (((kept.dropWhile Char.isWhitespace).reverse.dropWhile Char.isWhitespace).reverse).asString

/-- The per-field update of `mapVariableFieldsToPdfBoxes`
(`src/services/pdfService.ts` lines 247–250) and `handleMapFields`
(`src/components/PdfProcessor.tsx` lines 276–279): look up a mapping whose
`fieldId` equals the field's `name` and, when found, set `boxId`. -/
def updateFieldWithMappings (mappings : List VariableMapping) (field : VariableField) :
    VariableField :=
  match mappings.find? (fun m => m.fieldId == field.name) with
  | some mapping => { field with boxId := some mapping.boxId }
  | none => field

/-- The `updatedFields` list of `mapVariableFieldsToPdfBoxes` /
`handleMapFields`: every field passed through `updateFieldWithMappings`. -/
def updatedFieldsOf (fields : List VariableField) (mr : FieldMappingResult) :
    List VariableField :=
  fields.map (updateFieldWithMappings mr.mappings)

/-- JS truthiness of an optional string (`undefined` and `''` are falsy). -/
def truthyOptStr : Option String → Bool
  | none => false
  | some s => !(s == "")

/-- The `existingBoxIds` list of `mapVariableFieldsToPdfBoxes`
(`src/services/pdfService.ts` lines 253–255): box ids referenced by fields
with a truthy `boxId`. -/
def existingBoxIds (fields : List VariableField) : List String :=
  (fields.filter (fun f => truthyOptStr f.boxId)).filterMap (fun f => f.boxId)

/-- The synthesized field for one unmapped box
(`src/services/pdfService.ts` lines 259–266): name from the box's sanitized
text, or the fallback `Field {boxId}`; the fresh id generator stands in for
the `field-{Date.now()}-{random}` template. -/
def synthesizeField (boxes : List BoundingBox) (gen : String → String) (boxId : String) :
    VariableField :=
  { id := gen boxId
    name := match boxes.find? (fun box => box.id == some boxId) with
            | some box => sanitizeFieldName box.text
            | none => "Field " ++ boxId
    value := ""
    boxId := some boxId }

/-- `newFieldsForUnmappedBoxes` (`src/services/pdfService.ts` lines
257–267): synthesize a field for each unmapped box id not already
referenced by a field. -/
def newFieldsForUnmappedBoxes (mr : FieldMappingResult) (boxes : List BoundingBox)
    (existing : List String) (gen : String → String) : List VariableField :=
  (mr.unmappedBoxes.filter (fun boxId => !(existing.contains boxId))).map
    (synthesizeField boxes gen)

/-- The full field-list transformation of one mapping application
(`src/services/pdfService.ts` lines 247–271, identical inline in
`handleMapFields`): per-field update, then the synthesized fields for
unreferenced unmapped boxes appended. -/
def applyMappingResult (fields : List VariableField) (mr : FieldMappingResult)
    (boxes : List BoundingBox) (gen : String → String) : List VariableField :=
  updatedFieldsOf fields mr
    ++ newFieldsForUnmappedBoxes mr boxes
        (existingBoxIds (updatedFieldsOf fields mr)) gen

/-- The auto-created fields of `processFile`
(`src/components/PdfProcessor.tsx` lines 218–225): one field per extracted
box, named from the box's sanitized text, `boxId` the box's id; the fresh
id generator stands in for the `field-{Date.now()}-{random}` template. -/
def autoCreateFields (results : PdfResults) (gen : Nat → String) : List VariableField :=
  (results.pages.flatMap (fun page => page.boxes)).enum.map
    (fun p => { id := gen p.1, name := sanitizeFieldName p.2.text, value := "",
                boxId := p.2.id })

/-- C6: applying a mapping result updates each field whose name (not id)
equals some mapping's `fieldId` to that mapping's `boxId`, and leaves every
field with no matching mapping completely unchanged (prior `boxId`
included); the whole list is the per-field map of this update. -/
theorem claim_C6_apply_mapping_by_name (mappings : List VariableMapping)
    (f : VariableField) (fields : List VariableField) (unmapped : List String) :
    ((∃ m ∈ mappings, m.fieldId = f.name) →
      ∃ m ∈ mappings, m.fieldId = f.name ∧
        updateFieldWithMappings mappings f = { f with boxId := some m.boxId }) ∧
    ((∀ m ∈ mappings, m.fieldId ≠ f.name) →
      updateFieldWithMappings mappings f = f) ∧
    updatedFieldsOf fields ⟨mappings, unmapped⟩
      = fields.map (updateFieldWithMappings mappings) := by
  refine ⟨?_, ?_, rfl⟩
  · rintro ⟨m0, hm0, hname⟩
    cases h : mappings.find? (fun m => m.fieldId == f.name) with
    | none =>
      exfalso
      rw [List.find?_eq_none] at h
      exact h m0 hm0 (by simp [hname])
    | some m1 =>
      refine ⟨m1, List.mem_of_find?_eq_some h, ?_, ?_⟩
      · simpa using List.find?_some h
      · simp [updateFieldWithMappings, h]
  · intro hall
    cases h : mappings.find? (fun m => m.fieldId == f.name) with
    | none => simp [updateFieldWithMappings, h]
    | some m1 =>
      exfalso
      exact hall m1 (List.mem_of_find?_eq_some h) (by simpa using List.find?_some h)

/-- C6 witness: one mapping named "Name"; the field named "Name" gets the
mapping's box id, the field named "Other" is untouched. -/
theorem claim_C6_apply_mapping_by_name_witness :
    (∃ m ∈ [VariableMapping.mk "Name" "box-1"], m.fieldId = "Name" ∧
      updateFieldWithMappings [VariableMapping.mk "Name" "box-1"] ⟨"f1", "Name", "", none⟩
        = { (⟨"f1", "Name", "", none⟩ : VariableField) with boxId := some m.boxId }) ∧
    updateFieldWithMappings [VariableMapping.mk "Name" "box-1"] ⟨"f2", "Other", "", some "b0"⟩
      = ⟨"f2", "Other", "", some "b0"⟩ :=
  ⟨(claim_C6_apply_mapping_by_name [VariableMapping.mk "Name" "box-1"]
      ⟨"f1", "Name", "", none⟩ [] []).1 ⟨⟨"Name", "box-1"⟩, List.mem_singleton.mpr rfl, rfl⟩,
   (claim_C6_apply_mapping_by_name [VariableMapping.mk "Name" "box-1"]
      ⟨"f2", "Other", "", some "b0"⟩ [] []).2.1
     (by intro m hm; rw [List.mem_singleton] at hm; subst hm; decide)⟩

theorem updateFieldWithMappings_idem (mappings : List VariableMapping) (f : VariableField) :
    updateFieldWithMappings mappings (updateFieldWithMappings mappings f)
      = updateFieldWithMappings mappings f := by
  cases h : mappings.find? (fun m => m.fieldId == f.name) with
  | none => simp [updateFieldWithMappings, h]
  | some m1 => simp [updateFieldWithMappings, h]

theorem updatedFieldsOf_append (a b : List VariableField) (mr : FieldMappingResult) :
    updatedFieldsOf (a ++ b) mr = updatedFieldsOf a mr ++ updatedFieldsOf b mr := by
  simp [updatedFieldsOf]

theorem updatedFieldsOf_idem (fields : List VariableField) (mr : FieldMappingResult) :
    updatedFieldsOf (updatedFieldsOf fields mr) mr = updatedFieldsOf fields mr := by
  simp only [updatedFieldsOf, List.map_map]
  apply List.map_congr_left
  intro f _
  simp only [Function.comp]
  exact updateFieldWithMappings_idem _ _

/-- C4 counterexample: one field named "Name", a mapping `Date ↦ box-1`,
and unmapped box `box-2` whose text sanitizes to "Date". The first
application synthesizes a field "Date" referencing box-2; the second
application remaps that synthesized field to box-1 and synthesizes yet
another field for box-2, so the boxId assignments of applying twice differ
from applying once. -/
theorem claim_C4_not_idempotent :
    (applyMappingResult [⟨"f1", "Name", "", none⟩]
        ⟨[⟨"Date", "box-1"⟩], ["box-2"]⟩
        [⟨1, 0, 0, 1, 1, "X", some "box-1"⟩, ⟨1, 0, 0, 1, 1, "Date.", some "box-2"⟩]
        (fun b => "field-" ++ b)).map (fun f => f.boxId)
      = [none, some "box-2"] ∧
    (applyMappingResult
        (applyMappingResult [⟨"f1", "Name", "", none⟩]
          ⟨[⟨"Date", "box-1"⟩], ["box-2"]⟩
          [⟨1, 0, 0, 1, 1, "X", some "box-1"⟩, ⟨1, 0, 0, 1, 1, "Date.", some "box-2"⟩]
          (fun b => "field-" ++ b))
        ⟨[⟨"Date", "box-1"⟩], ["box-2"]⟩
        [⟨1, 0, 0, 1, 1, "X", some "box-1"⟩, ⟨1, 0, 0, 1, 1, "Date.", some "box-2"⟩]
        (fun b => "field-" ++ b)).map (fun f => f.boxId)
      = [none, some "box-1", some "box-2"] := by
  constructor <;> rfl

/-- C4 amended: the per-field update step is fully idempotent, and under the
complete application (update plus synthesis of fields for unreferenced
unmapped boxes) every field of the original list gets exactly the same
state whether the mapping result is applied once or twice; only fields
synthesized for unmapped boxes can change on the second application. -/
theorem claim_C4_mapping_idem_on_original (fields : List VariableField)
    (mr : FieldMappingResult) (boxes : List BoundingBox) (gen : String → String) :
    (applyMappingResult (applyMappingResult fields mr boxes gen) mr boxes gen).take
        fields.length
      = (applyMappingResult fields mr boxes gen).take fields.length ∧
    updatedFieldsOf (updatedFieldsOf fields mr) mr = updatedFieldsOf fields mr := by
  refine ⟨?_, updatedFieldsOf_idem fields mr⟩
  have hlen : (updatedFieldsOf fields mr).length = fields.length := List.length_map _ _
  simp only [applyMappingResult]
  rw [updatedFieldsOf_append, updatedFieldsOf_idem, List.append_assoc]
  rw [← hlen, List.take_left, List.take_left]

/-- The unmapped-box-id set stored by `handleMapFields`
(`src/components/PdfProcessor.tsx` line 283): the mapping result's
`unmappedBoxes`, taken verbatim. -/
def handleMapFieldsUnmapped (mr : FieldMappingResult) : List String :=
  mr.unmappedBoxes

/-- C5 counterexample: one extracted box `box-1-0`; auto-creation gives its
field `boxId = box-1-0`; the mapping result has no mappings and lists
`box-1-0` as unmapped. After application the box id is referenced by
exactly one field AND is in the stored unmapped set, so "never both"
fails. -/
theorem claim_C5_both_referenced_and_unmapped :
    ((applyMappingResult
        (autoCreateFields ⟨[⟨[⟨1, 0, 0, 10, 10, "Name", some "box-1-0"⟩]⟩]⟩
          (fun _ => "field-auto"))
        ⟨[], ["box-1-0"]⟩
        (allBoxes ⟨[⟨[⟨1, 0, 0, 10, 10, "Name", some "box-1-0"⟩]⟩]⟩)
        (fun b => "field-" ++ b)).filter
        (fun f => f.boxId == some "box-1-0")).length = 1 ∧
    "box-1-0" ∈ handleMapFieldsUnmapped ⟨[], ["box-1-0"]⟩ :=
  ⟨rfl, List.mem_singleton.mpr rfl⟩

/-- C5 amended: after auto-creating fields and applying a mapping result,
every box id in the stored unmapped set is referenced by at least one
field's boxId (an existing field, or the field synthesized for it); the
exclusive-or of the original claim does not hold, since a box id can be
referenced and unmapped at once and reference counts can exceed one. -/
theorem claim_C5_unmapped_always_referenced (fields : List VariableField)
    (mr : FieldMappingResult) (boxes : List BoundingBox) (gen : String → String)
    (boxId : String) (hb : boxId ∈ handleMapFieldsUnmapped mr) :
    ∃ f ∈ applyMappingResult fields mr boxes gen, f.boxId = some boxId := by
  rw [handleMapFieldsUnmapped] at hb
  by_cases hc : (existingBoxIds (updatedFieldsOf fields mr)).contains boxId
  · have hmem : boxId ∈ existingBoxIds (updatedFieldsOf fields mr) := by
      simpa using hc
    rw [existingBoxIds, List.mem_filterMap] at hmem
    obtain ⟨f, hf, hfb⟩ := hmem
    exact ⟨f, List.mem_append_left _ (List.mem_of_mem_filter hf), hfb⟩
  · refine ⟨synthesizeField boxes gen boxId, ?_, rfl⟩
    apply List.mem_append_right
    simp only [newFieldsForUnmappedBoxes]
    apply List.mem_map_of_mem
    rw [List.mem_filter]
    exact ⟨hb, by simpa using hc⟩

/-- C5 witness: the amended property at the concrete one-box document with
an empty mapping and `box-1-0` unmapped. -/
theorem claim_C5_unmapped_always_referenced_witness :
    ∃ f ∈ applyMappingResult
        (autoCreateFields ⟨[⟨[⟨1, 0, 0, 10, 10, "Name", some "box-1-0"⟩]⟩]⟩
          (fun _ => "field-auto"))
        ⟨[], ["box-1-0"]⟩
        (allBoxes ⟨[⟨[⟨1, 0, 0, 10, 10, "Name", some "box-1-0"⟩]⟩]⟩)
        (fun b => "field-" ++ b),
      f.boxId = some "box-1-0" :=
  claim_C5_unmapped_always_referenced
    (autoCreateFields ⟨[⟨[⟨1, 0, 0, 10, 10, "Name", some "box-1-0"⟩]⟩]⟩
      (fun _ => "field-auto"))
    ⟨[], ["box-1-0"]⟩
    (allBoxes ⟨[⟨[⟨1, 0, 0, 10, 10, "Name", some "box-1-0"⟩]⟩]⟩)
    (fun b => "field-" ++ b) "box-1-0" (List.mem_singleton.mpr rfl)

/-- The id assignment of `processFileWithGemini`
(`src/services/pdfService.ts` lines 171–179): each box of each page group
gets `box-{page.boxes[0]?.page || 0}-{index}` — the page number of the
group's FIRST box (0 when absent or 0) and the box's index in the group. -/
def assignBoxIds (parsedData : PdfResults) : PdfResults :=
  { pages := parsedData.pages.map fun page =>
      { boxes := page.boxes.enum.map fun p =>
          { p.2 with id := some ("box-"
              ++ toString (match page.boxes.head? with
                           | some b => b.page
                           | none => 0)
              ++ "-" ++ toString p.1) } } }

/-- C7: an extraction result with two page groups whose first boxes carry
the same page number is accepted unvalidated, and both groups' first boxes
get the id "box-1-0" — the assigned ids are not pairwise unique across the
document, contradicting the claim and the code's own comment ("Add unique
ids to each bounding box"). -/
theorem claim_C7_duplicate_ids :
    ((assignBoxIds ⟨[⟨[⟨1, 0, 0, 10, 10, "A", none⟩]⟩,
          ⟨[⟨1, 20, 20, 10, 10, "B", none⟩]⟩]⟩).pages.flatMap
        (fun page => page.boxes)).filterMap (fun box => box.id)
      = ["box-1-0", "box-1-0"] ∧
    ¬ (["box-1-0", "box-1-0"] : List String).Nodup :=
  ⟨rfl, by simp⟩

/-- A browser `File`: name plus raw bytes. -/
structure PdfFileModel where
  name : String
  bytes : List Nat
deriving DecidableEq

/-- The parsed JSON of a persisted-document file as consumed by
`loadBoundingBoxData` (`src/services/pdfFileService.ts` lines 201–275);
each consulted property may be absent. -/
structure LoadedData where
  data : Option PdfResults
  pdfData : Option String
  fileName : Option String
  variableFields : Option (List VariableField)
  variableMappings : Option (List VariableMapping)
  unmappedBoxIds : Option (List String)
deriving DecidableEq

/-- The resolved value of the `loadBoundingBoxData` promise
(`src/services/pdfFileService.ts` lines 246–254). -/
structure LoadedBoxData where
  file : PdfFileModel
  objectUrl : String
  rawPdfData : String
  parsedResults : PdfResults
  variableFields : Option (List VariableField)
  variableMappings : Option (List VariableMapping)
  unmappedBoxIds : Option (List String)
deriving DecidableEq

/-- `createPdfFileFromBase64` from `src/services/pdfFileService.ts`
(lines 88–124); the browser's `atob` (which may throw on bad input) and
`URL.createObjectURL` are passed in as host functions. -/
def createPdfFileFromBase64 (atob : String → Option (List Nat))
    (mkObjectUrl : List Nat → String) (base64Data fileName : String) :
    Except String (PdfFileModel × String) :=
  match atob base64Data with
  | some bytes => .ok (⟨fileName, bytes⟩, mkObjectUrl bytes)
  | none => .error "Error creating PDF file from base64"

/-- `loadBoundingBoxData` from `src/services/pdfFileService.ts`
(lines 201–275), from the point where the chosen file's JSON has been
parsed: the `if (!loadedData.data || !loadedData.pdfData ||
!loadedData.fileName)` truthiness check (absent fields and empty strings
are falsy) rejects with the invalid-format error; otherwise the PDF file is
rebuilt from base64 and the loaded record resolved. -/
def loadBoundingBoxData (atob : String → Option (List Nat))
    (mkObjectUrl : List Nat → String) (loadedData : LoadedData) :
    Except String LoadedBoxData :=
  match loadedData.data, loadedData.pdfData, loadedData.fileName with
  | some d, some pdfData, some fileName =>
    if pdfData == "" || fileName == "" then .error "Invalid bounding box data format"
    else
      match createPdfFileFromBase64 atob mkObjectUrl pdfData fileName with
      | .ok fo => .ok ⟨fo.1, fo.2, pdfData, d, loadedData.variableFields,
          loadedData.variableMappings, loadedData.unmappedBoxIds⟩
      | .error e => .error e
  | _, _, _ => .error "Invalid bounding box data format"

/-- The PdfProcessor component state touched by loading a persisted
document (`src/components/PdfProcessor.tsx`). -/
structure ProcessorState where
  file : Option PdfFileModel
  pdfUrl : Option String
  rawPdfData : Option String
  parsedResults : Option PdfResults
  selectedBox : Option BoundingBox
  variableFields : List VariableField
  variableMappings : List VariableMapping
  unmappedBoxIds : List String
  error : Option String
  saveSuccess : Bool
deriving DecidableEq

/-- The component-level `loadBoundingBoxData` handler of
`src/components/PdfProcessor.tsx` (lines 729–774): on resolution the loaded
record is written into the state; on rejection only the error message is
set and nothing else changes. -/
def applyLoadBoundingBoxData (st : ProcessorState) (result : Except String LoadedBoxData) :
    ProcessorState :=
  match result with
  | .error e => { st with error := some ("Error loading bounding box data: " ++ e) }
  | .ok ld =>
    { st with
      file := some ld.file
      pdfUrl := some ld.objectUrl
      rawPdfData := some ld.rawPdfData
      parsedResults := some ld.parsedResults
      variableFields := match ld.variableFields with
                        | some v => v
                        | none => st.variableFields
      variableMappings := match ld.variableMappings with
                          | some v => v
                          | none => st.variableMappings
      unmappedBoxIds := match ld.unmappedBoxIds with
                        | some u => u
                        | none =>
                          ((ld.parsedResults.pages.flatMap (fun page => page.boxes)).map
                            (fun box => box.id.getD "")).filter (fun id => !(id == ""))
      saveSuccess := true }

/-- C8: loading a persisted document with any of `data`, `pdfData`,
`fileName` missing is rejected with the invalid-format error and leaves the
component state unchanged apart from the surfaced error message; and a load
can succeed only when all three fields are present. -/
theorem claim_C8_load_requires_fields (atob : String → Option (List Nat))
    (mkObjectUrl : List Nat → String) (ld : LoadedData) (st : ProcessorState) :
    ((ld.data = none ∨ ld.pdfData = none ∨ ld.fileName = none) →
      loadBoundingBoxData atob mkObjectUrl ld = .error "Invalid bounding box data format" ∧
      applyLoadBoundingBoxData st (loadBoundingBoxData atob mkObjectUrl ld)
        = { st with error := some ("Error loading bounding box data: "
              ++ "Invalid bounding box data format") }) ∧
    (∀ r, loadBoundingBoxData atob mkObjectUrl ld = .ok r →
      ld.data.isSome ∧ ld.pdfData.isSome ∧ ld.fileName.isSome) := by
  constructor
  · intro h
    rcases ld with ⟨d, p, f, vf, vm, ub⟩
    rcases d with _ | d <;> rcases p with _ | p <;> rcases f with _ | f <;>
      simp_all [loadBoundingBoxData, applyLoadBoundingBoxData]
  · intro r hr
    rcases ld with ⟨d, p, f, vf, vm, ub⟩
    rcases d with _ | d <;> rcases p with _ | p <;> rcases f with _ | f <;>
      simp_all [loadBoundingBoxData]

/-- C8 witness: a record with `data` and `pdfData` but no `fileName` is
rejected as invalid format and only the error message changes. -/
theorem claim_C8_load_requires_fields_witness :
    loadBoundingBoxData (fun _ => some []) (fun _ => "blob:1")
        ⟨some ⟨[]⟩, some "AAAA", none, none, none, none⟩
      = .error "Invalid bounding box data format" ∧
    applyLoadBoundingBoxData ⟨none, none, none, none, none, [], [], [], none, false⟩
        (loadBoundingBoxData (fun _ => some []) (fun _ => "blob:1")
          ⟨some ⟨[]⟩, some "AAAA", none, none, none, none⟩)
      = { (⟨none, none, none, none, none, [], [], [], none, false⟩ : ProcessorState) with
            error := some ("Error loading bounding box data: "
              ++ "Invalid bounding box data format") } :=
  (claim_C8_load_requires_fields (fun _ => some []) (fun _ => "blob:1")
      ⟨some ⟨[]⟩, some "AAAA", none, none, none, none⟩
      ⟨none, none, none, none, none, [], [], [], none, false⟩).1
    (Or.inr (Or.inr rfl))

/-- The coordinate being edited by `handleCoordinateChange`. -/
inductive CoordField
  | x
  | y
  | width
  | height
deriving DecidableEq

/-- The computed property `[field]: numValue` of `handleCoordinateChange`. -/
def setCoordField (box : BoundingBox) (field : CoordField) (v : ℚ) : BoundingBox :=
  match field with
  | .x => { box with x := v }
  | .y => { box with y := v }
  | .width => { box with width := v }
  | .height => { box with height := v }

/-- Model of the browser's `parseInt(value, 10)` as used by
`handleCoordinateChange`: skip leading whitespace, allow one sign, take the
leading run of decimal digits; when there is none the result is NaN, here
`none`. -/
def parseIntBase10 (s : String) : Option Int :=
  let cs := s.toList.dropWhile Char.isWhitespace
  let signAndRest : Int × List Char :=
    match cs with
    | '-' :: rest => (-1, rest)
    | '+' :: rest => (1, rest)
    | _ => (1, cs)
  let digits := signAndRest.2.takeWhile Char.isDigit
  if digits.isEmpty then none
  else some (signAndRest.1
    * (digits.foldl (fun acc c => acc * 10 + (c.toNat - Char.toNat '0')) 0 : Nat))

/-- `handleCoordinateChange` from `src/components/PdfProcessor.tsx`
(lines 613–650): bail out silently without a selection or parsed results;
parse the input with `parseInt(value, 10)` and return silently when it is
NaN; otherwise set the edited coordinate on the selected box and refresh
the selection. -/
def handleCoordinateChange (st : ProcessorState) (field : CoordField) (value : String) :
    ProcessorState :=
  match st.selectedBox, st.parsedResults with
  | some selectedBox, some parsedResults =>
    match parseIntBase10 value with
    | none => st
    | some numValue =>
      let updatedResults : PdfResults :=
        { pages := parsedResults.pages.map fun page =>
            { boxes := page.boxes.map fun box =>
                if box.id = selectedBox.id then setCoordField box field (numValue : ℚ)
                else box } }
      let updatedBox := (updatedResults.pages.flatMap (fun page => page.boxes)).find?
        (fun box => box.id == selectedBox.id)
      { st with
        parsedResults := some updatedResults
        selectedBox := match updatedBox with
                       | some b => some b
                       | none => st.selectedBox }
  | _, _ => st

/-- C9: a coordinate edit whose input does not parse as an integer (NaN
from `parseInt`) performs no mutation at all and surfaces no error — the
state, boxes included, is returned unchanged (with or without a selected
box). -/
theorem claim_C9_non_numeric_ignored (st : ProcessorState) (field : CoordField)
    (value : String) (h : parseIntBase10 value = none) :
    handleCoordinateChange st field value = st := by
  rcases st with ⟨f, u, r, pr, sb, vf, vm, ub, err, ss⟩
  cases sb <;> cases pr <;> simp [handleCoordinateChange, h]

/-- C9 witness: editing x with the non-numeric input "abc" while a box is
selected leaves the concrete state untouched. -/
theorem claim_C9_non_numeric_ignored_witness :
    handleCoordinateChange
        ⟨none, none, none, some ⟨[⟨[⟨1, 0, 0, 10, 10, "t", some "b"⟩]⟩]⟩,
         some ⟨1, 0, 0, 10, 10, "t", some "b"⟩, [], [], [], none, false⟩
        CoordField.x "abc"
      = ⟨none, none, none, some ⟨[⟨[⟨1, 0, 0, 10, 10, "t", some "b"⟩]⟩]⟩,
         some ⟨1, 0, 0, 10, 10, "t", some "b"⟩, [], [], [], none, false⟩ :=
  claim_C9_non_numeric_ignored
    ⟨none, none, none, some ⟨[⟨[⟨1, 0, 0, 10, 10, "t", some "b"⟩]⟩]⟩,
     some ⟨1, 0, 0, 10, 10, "t", some "b"⟩, [], [], [], none, false⟩
    CoordField.x "abc" rfl

end GeminiChat
